import Mathlib

/-!
Verification development for the AI-Resume-Portfolio-Builder application
(`src/app/app.py`).  The Python source is shallowly embedded: strings are
modelled as `List Char`, the regex-based normalizer `clean_text` is modelled
character by character (ASCII reading of the character classes of the
patterns actually used: lowercasing, digit removal, removal of everything
that is not a letter or whitespace, collapse of whitespace runs), the
Word renderer is modelled as the list of paragraphs added via
`add_paragraph`, the PDF renderer as the drawing loop of reportlab with
exact rational coordinates (A4 height is 297mm = 297*72/25.4 = 106920/127
points), and the Streamlit submit handler as a pure dispatch function
parameterized by the external classifier.
-/

/-- Conversion of a Lean string literal to the character-list model used
throughout this development. -/
def str (s : String) : List Char := s.toList

/-- Characters matched by the regex class `\s` (ASCII range) used in
`clean_text` and the whitespace set stripped by `str.strip` in the
submit handler: space, tab, newline, carriage return, vertical tab,
form feed. -/
def isSpaceChar (c : Char) : Bool :=
  decide (c.toNat = 32 ∨ c.toNat = 9 ∨ c.toNat = 10 ∨ c.toNat = 13 ∨
    c.toNat = 11 ∨ c.toNat = 12)

/-- Lowercase ASCII letters `a`-`z`. -/
def isLowerAlpha (c : Char) : Bool := decide (97 ≤ c.toNat ∧ c.toNat ≤ 122)

/-- Uppercase ASCII letters `A`-`Z`. -/
def isUpperAlpha (c : Char) : Bool := decide (65 ≤ c.toNat ∧ c.toNat ≤ 90)

/-- Digit characters `0`-`9`, the class removed by `re.sub(r"\d+", "", .)`. -/
def isDigitChar (c : Char) : Bool := decide (48 ≤ c.toNat ∧ c.toNat ≤ 57)

/-- Python `str.lower()` restricted to the ASCII letters: uppercase letters
are shifted to their lowercase counterparts, all other characters are kept. -/
def pyLower (c : Char) : Char :=
  if isUpperAlpha c then Char.ofNat (c.toNat + 32) else c

/-- The characters kept by `re.sub(r"[^a-zA-Z\s]", "", .)`: letters and
whitespace. -/
def keepChar (c : Char) : Bool := isLowerAlpha c || isUpperAlpha c || isSpaceChar c

/-- Model of `re.sub(r"\s+", " ", .)`: every maximal run of whitespace
characters is replaced by a single space. -/
def collapseWs : List Char → List Char
  | [] => []
  | [c] => [if isSpaceChar c then ' ' else c]
  | c :: d :: cs =>
      if isSpaceChar c && isSpaceChar d then collapseWs (d :: cs)
      else (if isSpaceChar c then ' ' else c) :: collapseWs (d :: cs)

/-- Model of `clean_text` from `src/app/app.py`: lowercase, remove digits,
remove every character that is not a letter or whitespace, collapse
whitespace runs to single spaces. -/
def clean_text (s : List Char) : List Char :=
  collapseWs (((s.map pyLower).filter fun c => !isDigitChar c).filter keepChar)

/-- Model of `text.strip() == ""`: a string strips to empty exactly when all
of its characters are whitespace. -/
def pyStripIsEmpty (s : List Char) : Bool := s.all isSpaceChar

/-- Model of `generate_resume` from `src/app/app.py`: the fixed resume
template with the predicted role interpolated after `Target Role: `. -/
def generate_resume (role : List Char) : List Char :=
  str "PROFESSIONAL RESUME\n\nTarget Role: " ++ role ++
  str "\n\nPROFESSIONAL SUMMARY\nMotivated professional seeking a role in this domain.\nStrong foundation in technical skills and problem solving.\n\nCORE SKILLS\n- Python, Machine Learning, Streamlit, Data Analysis\n- Communication, Teamwork, Problem Solving\n- Tools: Git, Jupyter Notebook, VS Code\n\nPROJECT EXPERIENCE\nAI Resume & Portfolio Builder\n- Built a ML model to classify resumes.\n- Deployed an interactive app using Streamlit.\n\nEDUCATION\nBachelor’s Degree in a relevant discipline\n\nCERTIFICATIONS\n- Python for Data Science\n- Machine Learning Fundamentals\n\nADDITIONAL INFORMATION\nStrong interest in continuous learning and AI applications.\n"

/-- Model of `generate_cover_letter` from `src/app/app.py`. -/
def generate_cover_letter (role : List Char) : List Char :=
  str "Dear Hiring Manager,\n\nI am applying for the " ++ role ++
  str " position at your organization.\nI have strong technical skills and hands-on project experience.\n\nI recently built an AI Resume & Portfolio Builder using\nmachine learning and Streamlit to automate document creation.\n\nI am motivated, adaptable, and eager to contribute effectively.\n\nThank you for your time and consideration.\n\nSincerely,\nApplicant\n"

/-- Model of `generate_portfolio` from `src/app/app.py`. -/
def generate_portfolio (role : List Char) : List Char :=
  str "PORTFOLIO PROFILE – " ++ role ++
  str "\n\nABOUT ME\nAspiring professional with strong interest in AI and software.\n\nTECHNICAL SKILLS\n- Python, SQL\n- Machine Learning, NLP\n- Streamlit\n- Git, Jupyter, VS Code\n\nPROJECTS\nAI Resume & Portfolio Builder\n- Built a resume classification model.\n- Integrated into a Streamlit web app.\n\nCAREER OBJECTIVE\nTo apply technical skills, grow professionally, and\ncontribute to innovative projects.\n\nCONTACT\nEmail: your_email@example.com\nGitHub: https://github.com/yourprofile\nLinkedIn: https://linkedin.com/in/yourprofile\n"

/-- Model of `customize_for_job` from `src/app/app.py`: if the job
description strips to the empty string, fall back to `generate_resume`,
otherwise emit the customized template embedding the job description and
the candidate text verbatim. -/
def customize_for_job (role resume_input job_desc : List Char) : List Char :=
  if pyStripIsEmpty job_desc then generate_resume role
  else
    str "PROFESSIONAL RESUME (CUSTOMIZED)\n\nTarget Role: " ++ role ++
    str "\n\nCUSTOMIZED SUMMARY\nThis resume has been tailored to align with the job description.\n\nJOB DESCRIPTION KEY REQUIREMENTS\n" ++ job_desc ++
    str "\n\nCANDIDATE PROFILE\n" ++ resume_input ++
    str "\n\nKEY ALIGNMENT\n- Skills aligned with job requirements.\n- Keywords optimized for ATS systems.\n- Content adjusted to match role expectations.\n"

/-- Helper for `splitLines`: prepend a character to the first piece of a
split result (used for characters that are not the separator). -/
def consHead (c : Char) : List (List Char) → List (List Char)
  | [] => [[c]]
  | l :: ls => (c :: l) :: ls

/-- Model of Python `text.split("\n")`: the empty string yields `[[]]`,
and every newline character opens a new (possibly empty) piece. -/
def splitLines : List Char → List (List Char)
  | [] => [[]]
  | c :: cs => if c = '\n' then [] :: splitLines cs else consHead c (splitLines cs)

/-- Model of a python-docx `Document`: the ordered list of paragraph texts. -/
structure DocxDocument where
  paragraphs : List (List Char)
deriving DecidableEq

/-- Model of `Document.add_paragraph`: appends one paragraph. -/
def DocxDocument.add_paragraph (doc : DocxDocument) (line : List Char) : DocxDocument :=
  ⟨doc.paragraphs ++ [line]⟩

/-- Model of `generate_word_file` from `src/app/app.py`: one paragraph is
added per line of the text split on newline characters. -/
def generate_word_file (text : List Char) : DocxDocument :=
  (splitLines text).foldl DocxDocument.add_paragraph ⟨[]⟩

/-- Height of an A4 page in points as used by reportlab: 297mm with
1mm = 72/25.4 points, that is 297*72/25.4 = 106920/127 ≈ 841.89. -/
def A4height : ℚ := 106920 / 127

/-- State of the reportlab canvas in `generate_pdf_file`: finished pages,
the drawing operations of the current page (x coordinate, y coordinate,
text), and the vertical cursor `y_position`. -/
structure PdfState where
  pages : List (List (ℚ × ℚ × List Char))
  current : List (ℚ × ℚ × List Char)
  y_position : ℚ
deriving DecidableEq

/-- One iteration of the drawing loop of `generate_pdf_file`: draw the line
at `(40, y_position)`, move the cursor down by 14, and if the cursor passed
the bottom margin (`y_position < 40`) start a new page with the cursor reset
to `height - 40`. -/
def pdfDrawLine (st : PdfState) (line : List Char) : PdfState :=
  let cur := st.current ++ [(40, st.y_position, line)]
  let y2 := st.y_position - 14
  if y2 < 40 then { pages := st.pages ++ [cur], current := [], y_position := A4height - 40 }
  else { pages := st.pages, current := cur, y_position := y2 }

/-- Initial canvas state of `generate_pdf_file`: no pages, empty current
page, cursor at `height - 40`. -/
def pdfInit : PdfState := ⟨[], [], A4height - 40⟩

/-- Model of `generate_pdf_file` from `src/app/app.py`: fold the drawing
loop over the lines of the text split on newline characters. -/
def generate_pdf_file (text : List Char) : PdfState :=
  (splitLines text).foldl pdfDrawLine pdfInit

/-- Model of `generate_portfolio_website` from `src/app/app.py`: the HTML
skeleton with the role in the title and heading and the raw resume text
embedded, unescaped, in the preformatted block. -/
def generate_portfolio_website (role resume_input : List Char) : List Char :=
  str "<!DOCTYPE html>\n<html lang=\x27en\x27>\n<head>\n  <meta charset=\x27UTF-8\x27>\n  <meta name=\x27viewport\x27 content=\x27width=device-width, initial-scale=1.0\x27>\n  <title>Portfolio - " ++ role ++
  str "</title>\n</head>\n<body>\n\n<h1>Portfolio – " ++ role ++
  str "</h1>\n\n<pre>\n" ++ resume_input ++
  str "\n</pre>\n\n</body>\n</html>\n"

/-- The selectbox options of the Streamlit UI. -/
inductive DocOption
  | PredictJobCategory
  | GenerateResume
  | GenerateCoverLetter
  | GeneratePortfolio
deriving DecidableEq

/-- Payload of one download artifact: a Word document, a PDF canvas, or an
HTML page. -/
inductive Payload
  | word (d : DocxDocument)
  | pdf (p : PdfState)
  | html (s : List Char)
deriving DecidableEq

/-- One download artifact of the submit handler: target filename plus
payload. -/
structure Artifact where
  filename : List Char
  payload : Payload
deriving DecidableEq

/-- Observable outcome of one submission: whether the empty-input warning
was shown, the list of inputs passed to the classifier, the generated text
shown to the user, and the download artifacts in order. -/
structure SubmitResult where
  warned : Bool
  classifierCalls : List (List Char)
  shownText : Option (List Char)
  artifacts : List Artifact
deriving DecidableEq

/-- Model of the submit handler of `src/app/app.py` (the `if st.button`
block): reject empty input with a warning; otherwise normalize, call the
classifier once, and dispatch on the selected option exactly as the four
branches of the source do.  The external model/vectorizer pair is passed in
as the black-box function `classify`. -/
def submit (classify : List Char → List Char) (opt : DocOption)
    (resume_text job_description : List Char) : SubmitResult :=
  if pyStripIsEmpty resume_text then
    { warned := true, classifierCalls := [], shownText := none, artifacts := [] }
  else
    let cleaned_input := clean_text resume_text
    let predicted_role := classify cleaned_input
    match opt with
    | DocOption.PredictJobCategory =>
        { warned := false, classifierCalls := [cleaned_input], shownText := none,
          artifacts := [] }
    | DocOption.GenerateResume =>
        let resume_output := customize_for_job predicted_role resume_text job_description
        { warned := false, classifierCalls := [cleaned_input],
          shownText := some resume_output,
          artifacts := [⟨str "resume.docx", Payload.word (generate_word_file resume_output)⟩,
                        ⟨str "resume.pdf", Payload.pdf (generate_pdf_file resume_output)⟩] }
    | DocOption.GenerateCoverLetter =>
        let cover_output := generate_cover_letter predicted_role
        { warned := false, classifierCalls := [cleaned_input],
          shownText := some cover_output,
          artifacts := [⟨str "cover_letter.docx", Payload.word (generate_word_file cover_output)⟩,
                        ⟨str "cover_letter.pdf", Payload.pdf (generate_pdf_file cover_output)⟩] }
    | DocOption.GeneratePortfolio =>
        let portfolio_output := generate_portfolio predicted_role
        { warned := false, classifierCalls := [cleaned_input],
          shownText := some portfolio_output,
          artifacts := [⟨str "portfolio.docx", Payload.word (generate_word_file portfolio_output)⟩,
                        ⟨str "portfolio.pdf", Payload.pdf (generate_pdf_file portfolio_output)⟩,
                        ⟨str "portfolio.html",
                         Payload.html (generate_portfolio_website predicted_role resume_text)⟩] }

/-- Characters that may appear in a `clean_text` output: lowercase letters
and the plain space. -/
def goodOut (c : Char) : Bool := isLowerAlpha c || c == ' '

/-- Characters that may appear right before the whitespace-collapsing pass:
lowercase letters and whitespace. -/
def goodPre (c : Char) : Bool := isLowerAlpha c || isSpaceChar c

/-- No two adjacent space characters. -/
def noDoubleSpace : List Char → Bool
  | c :: d :: cs => !(c == ' ' && d == ' ') && noDoubleSpace (d :: cs)
  | _ => true

/-- Substring containment on character lists. -/
def containsSub (pat s : List Char) : Prop := ∃ a b, s = a ++ (pat ++ b)

/-- Total number of lines drawn on a PDF canvas, over all pages. -/
def pdfDrawnCount (p : PdfState) : ℕ :=
  (p.pages.map List.length).sum + p.current.length

/-- A rendered payload with actual content; a saved payload with content is
in particular a non-empty byte buffer. -/
def payloadNonempty : Payload → Bool
  | Payload.word d => decide (d.paragraphs ≠ [])
  | Payload.pdf p => decide (0 < pdfDrawnCount p)
  | Payload.html s => decide (s ≠ [])

/-- The end-to-end input of the Resume scenario. -/
def ex8text : List Char := str "Experienced Python developer with 5 years in data science."

/-- The normalized form of `ex8text`. -/
def ex8clean : List Char := str "experienced python developer with years in data science"

/-- A document of 52 empty lines (51 newline characters). -/
def pdfSmallDoc : List Char := List.replicate 51 '\n'

/-- A document of 60 empty lines (59 newline characters). -/
def pdfBigDoc : List Char := List.replicate 59 '\n'

/-- The drawing operations produced from consecutive lines when no page
break intervenes, starting `j` line heights below the top margin: line `i`
of the list is drawn at `(40, A4height - 40 - 14*(j+i))`. -/
def drawnFrom (j : ℕ) : List (List Char) → List (ℚ × ℚ × List Char)
  | [] => []
  | l :: ls => (40, A4height - 40 - 14 * j, l) :: drawnFrom (j + 1) ls

theorem toNat_ofNat_small (n : Nat) (h : n < 55296) : (Char.ofNat n).toNat = n := by
  have hv : Nat.isValidChar n := Or.inl h
  simp [Char.ofNat, hv, Char.ofNatAux, Char.toNat, UInt32.toNat]

theorem lower_not_space {c : Char} (h : isLowerAlpha c = true) : isSpaceChar c = false := by
  simp only [isLowerAlpha, decide_eq_true_eq] at h
  simp only [isSpaceChar, decide_eq_false_iff_not]
  omega

theorem lower_not_upper {c : Char} (h : isLowerAlpha c = true) : isUpperAlpha c = false := by
  simp only [isLowerAlpha, decide_eq_true_eq] at h
  simp only [isUpperAlpha, decide_eq_false_iff_not]
  omega

theorem lower_not_digit {c : Char} (h : isLowerAlpha c = true) : isDigitChar c = false := by
  simp only [isLowerAlpha, decide_eq_true_eq] at h
  simp only [isDigitChar, decide_eq_false_iff_not]
  omega

theorem goodOut_cases {c : Char} (h : goodOut c = true) :
    isLowerAlpha c = true ∨ c = ' ' := by
  simpa [goodOut] using h

theorem space_good {c : Char} (h : goodOut c = true) (hs : isSpaceChar c = true) :
    c = ' ' := by
  rcases goodOut_cases h with hl | he
  · rw [lower_not_space hl] at hs
    cases hs
  · exact he

theorem pyLower_not_upper (c : Char) : isUpperAlpha (pyLower c) = false := by
  unfold pyLower
  by_cases h : isUpperAlpha c = true
  · simp only [h, if_true]
    have hn : c.toNat + 32 < 55296 := by
      simp only [isUpperAlpha, decide_eq_true_eq] at h
      omega
    simp only [isUpperAlpha, decide_eq_false_iff_not, toNat_ofNat_small _ hn]
    simp only [isUpperAlpha, decide_eq_true_eq] at h
    omega
  · rw [Bool.not_eq_true] at h
    simp [h]

theorem pyLower_fix {c : Char} (h : goodOut c = true) : pyLower c = c := by
  unfold pyLower
  rcases goodOut_cases h with hl | he
  · simp [lower_not_upper hl]
  · subst he
    decide

theorem goodOut_keep {c : Char} (h : goodOut c = true) : keepChar c = true := by
  rcases goodOut_cases h with hl | he
  · simp [keepChar, hl]
  · subst he
    decide

theorem goodOut_not_digit {c : Char} (h : goodOut c = true) : isDigitChar c = false := by
  rcases goodOut_cases h with hl | he
  · exact lower_not_digit hl
  · subst he
    decide

theorem goodOut_pre {c : Char} (h : goodOut c = true) : goodPre c = true := by
  rcases goodOut_cases h with hl | he
  · simp [goodPre, hl]
  · subst he
    decide

theorem map_pyLower_fix {l : List Char} (h : l.all goodOut = true) :
    l.map pyLower = l := by
  induction l with
  | nil => rfl
  | cons c cs ih =>
    rw [List.all_cons, Bool.and_eq_true] at h
    simp [pyLower_fix h.1, ih h.2]

theorem filter_digit_fix {l : List Char} (h : l.all goodOut = true) :
    (l.filter fun c => !isDigitChar c) = l := by
  rw [List.filter_eq_self]
  intro a ha
  rw [List.all_eq_true] at h
  simp [goodOut_not_digit (h a ha)]

theorem filter_keep_fix {l : List Char} (h : l.all goodOut = true) :
    l.filter keepChar = l := by
  rw [List.filter_eq_self]
  intro a ha
  rw [List.all_eq_true] at h
  exact goodOut_keep (h a ha)

theorem collapseWs_fix (l : List Char) (h : l.all goodOut = true)
    (hd : noDoubleSpace l = true) : collapseWs l = l := by
  induction l with
  | nil => rfl
  | cons c cs ih =>
    cases cs with
    | nil =>
      rw [List.all_cons, Bool.and_eq_true] at h
      rcases goodOut_cases h.1 with hl | he
      · simp [collapseWs, lower_not_space hl]
      · subst he
        simp [collapseWs]
    | cons d cs' =>
      rw [List.all_cons, Bool.and_eq_true] at h
      have hgc := h.1
      have hgd : goodOut d = true := by
        have := h.2
        rw [List.all_cons, Bool.and_eq_true] at this
        exact this.1
      simp only [noDoubleSpace, Bool.and_eq_true, Bool.not_eq_eq_eq_not, Bool.not_true] at hd
      have hcond : (isSpaceChar c && isSpaceChar d) = false := by
        by_contra hcc
        rw [Bool.not_eq_false, Bool.and_eq_true] at hcc
        have hc' := space_good hgc hcc.1
        have hd' := space_good hgd hcc.2
        subst hc'
        subst hd'
        simp at hd
      have hhead : (if isSpaceChar c then ' ' else c) = c := by
        by_cases hs : isSpaceChar c = true
        · rw [if_pos hs, space_good hgc hs]
        · rw [Bool.not_eq_true] at hs
          rw [if_neg (by simp [hs])]
      simp only [collapseWs, hcond, Bool.false_eq_true, if_false, hhead]
      rw [ih h.2 hd.2]

theorem collapseWs_head (d : Char) (cs : List Char) :
    ∃ rest, collapseWs (d :: cs) = (if isSpaceChar d then ' ' else d) :: rest := by
  induction cs generalizing d with
  | nil => exact ⟨[], rfl⟩
  | cons e cs' ih =>
    by_cases h : (isSpaceChar d && isSpaceChar e) = true
    · obtain ⟨rest, hr⟩ := ih e
      rw [Bool.and_eq_true] at h
      refine ⟨rest, ?_⟩
      simp only [collapseWs, h.1, h.2, Bool.and_self, if_true, hr]
    · rw [Bool.not_eq_true] at h
      refine ⟨collapseWs (e :: cs'), ?_⟩
      simp only [collapseWs, h, Bool.false_eq_true, if_false]

theorem collapseWs_all (l : List Char) (h : l.all goodPre = true) :
    (collapseWs l).all goodOut = true := by
  induction l with
  | nil => rfl
  | cons c cs ih =>
    have hgc : goodPre c = true := by
      rw [List.all_cons, Bool.and_eq_true] at h
      exact h.1
    have hcs : cs.all goodPre = true := by
      rw [List.all_cons, Bool.and_eq_true] at h
      exact h.2
    have hhead : goodOut (if isSpaceChar c then ' ' else c) = true := by
      by_cases hs : isSpaceChar c = true
      · simp [hs, goodOut]
      · rw [Bool.not_eq_true] at hs
        rw [if_neg (by simp [hs])]
        simp only [goodPre, hs, Bool.or_false] at hgc
        simp [goodOut, hgc]
    cases cs with
    | nil => simp [collapseWs, hhead]
    | cons d cs' =>
      by_cases hc : (isSpaceChar c && isSpaceChar d) = true
      · simp only [collapseWs, hc, if_true]
        exact ih hcs
      · rw [Bool.not_eq_true] at hc
        simp only [collapseWs, hc, Bool.false_eq_true, if_false, List.all_cons,
          Bool.and_eq_true]
        exact ⟨hhead, ih hcs⟩

theorem ite_space_beq_space (c : Char) :
    ((if isSpaceChar c then ' ' else c) == ' ') = isSpaceChar c := by
  by_cases h : isSpaceChar c = true
  · simp [h]
  · rw [Bool.not_eq_true] at h
    have hne : c ≠ ' ' := by
      intro he
      rw [he] at h
      exact absurd h (by decide)
    simp [h, hne]

theorem collapseWs_nodbl (l : List Char) : noDoubleSpace (collapseWs l) = true := by
  induction l with
  | nil => rfl
  | cons c cs ih =>
    cases cs with
    | nil =>
      simp [collapseWs, noDoubleSpace]
    | cons d cs' =>
      by_cases hc : (isSpaceChar c && isSpaceChar d) = true
      · simp only [collapseWs, hc, if_true]
        exact ih
      · rw [Bool.not_eq_true] at hc
        obtain ⟨rest, hr⟩ := collapseWs_head d cs'
        simp only [collapseWs, hc, Bool.false_eq_true, if_false, hr]
        simp only [noDoubleSpace, Bool.and_eq_true, Bool.not_eq_eq_eq_not, Bool.not_true]
        constructor
        · rw [ite_space_beq_space c, ite_space_beq_space d]
          exact hc
        · rw [← hr]
          exact ih

theorem filtered_goodPre (s : List Char) :
    (((s.map pyLower).filter fun c => !isDigitChar c).filter keepChar).all goodPre
      = true := by
  rw [List.all_eq_true]
  intro c hc
  rw [List.mem_filter] at hc
  obtain ⟨hc1, hkeep⟩ := hc
  rw [List.mem_filter] at hc1
  obtain ⟨hm, _⟩ := hc1
  rw [List.mem_map] at hm
  obtain ⟨c₀, _, rfl⟩ := hm
  have hup := pyLower_not_upper c₀
  simp only [keepChar, hup, Bool.false_or, Bool.or_false, Bool.or_eq_true] at hkeep
  simp only [goodPre, Bool.or_eq_true]
  exact hkeep

theorem clean_text_all_goodOut (s : List Char) : (clean_text s).all goodOut = true :=
  collapseWs_all _ (filtered_goodPre s)

/-- C2: every character of `clean_text s` is a lowercase letter or a single
space, no two spaces are adjacent, and no digit character remains. -/
theorem clean_text_output_charclass (s : List Char) :
    (clean_text s).all goodOut = true ∧ noDoubleSpace (clean_text s) = true ∧
      (clean_text s).all (fun c => !isDigitChar c) = true := by
  refine ⟨clean_text_all_goodOut s, collapseWs_nodbl _, ?_⟩
  have h := clean_text_all_goodOut s
  rw [List.all_eq_true] at h ⊢
  intro c hc
  simp [goodOut_not_digit (h c hc)]

theorem clean_text_fixpoint {l : List Char} (h1 : l.all goodOut = true)
    (h2 : noDoubleSpace l = true) : clean_text l = l := by
  unfold clean_text
  rw [map_pyLower_fix h1, filter_digit_fix h1, filter_keep_fix h1,
    collapseWs_fix l h1 h2]

/-- C1: normalization is idempotent, `clean_text (clean_text s) = clean_text s`
for every string `s`. -/
theorem clean_text_idempotent (s : List Char) :
    clean_text (clean_text s) = clean_text s :=
  clean_text_fixpoint (clean_text_all_goodOut s) (collapseWs_nodbl _)

/-- C3: when the job description is empty or whitespace-only,
`customize_for_job` returns exactly `generate_resume role`, with no
influence of the candidate text. -/
theorem customize_empty_jd (role resume_input job_desc : List Char)
    (h : pyStripIsEmpty job_desc = true) :
    customize_for_job role resume_input job_desc = generate_resume role := by
  simp [customize_for_job, h]

/-- Witness for C3: a whitespace-only job description at concrete inputs. -/
theorem customize_empty_jd_witness :
    pyStripIsEmpty (str "  ") = true ∧
      customize_for_job (str "Data Science") (str "some candidate text") (str "  ") =
        generate_resume (str "Data Science") :=
  ⟨by decide, customize_empty_jd _ _ _ (by decide)⟩

/-- C7: an empty or whitespace-only resume text produces the user-visible
warning and nothing else: no classifier call, no generated text, no
artifacts. -/
theorem submit_empty_input (classify : List Char → List Char) (opt : DocOption)
    (resume_text job_description : List Char)
    (h : pyStripIsEmpty resume_text = true) :
    submit classify opt resume_text job_description =
      { warned := true, classifierCalls := [], shownText := none, artifacts := [] } := by
  simp [submit, h]

/-- Witness for C7: a whitespace-only resume text at concrete inputs. -/
theorem submit_empty_input_witness :
    pyStripIsEmpty (str "   ") = true ∧
      submit (fun _ => str "HR") DocOption.GenerateResume (str "   ") (str "jd") =
        { warned := true, classifierCalls := [], shownText := none, artifacts := [] } :=
  ⟨by decide, submit_empty_input _ _ _ _ (by decide)⟩

/-- C9: for the Cover Letter and Portfolio options the job-description
input has no effect on any output: two submissions differing only in the
job description produce identical results. -/
theorem jobdesc_noninterference (classify : List Char → List Char)
    (resume_text jd1 jd2 : List Char) :
    submit classify DocOption.GenerateCoverLetter resume_text jd1 =
        submit classify DocOption.GenerateCoverLetter resume_text jd2 ∧
      submit classify DocOption.GeneratePortfolio resume_text jd1 =
        submit classify DocOption.GeneratePortfolio resume_text jd2 :=
  ⟨rfl, rfl⟩

theorem consHead_ne_nil (c : Char) (L : List (List Char)) : consHead c L ≠ [] := by
  cases L <;> simp [consHead]

theorem splitLines_ne_nil (l : List Char) : splitLines l ≠ [] := by
  cases l with
  | nil => simp [splitLines]
  | cons c cs =>
    simp only [splitLines]
    by_cases h : c = '\n'
    · simp [h]
    · simp [h, consHead_ne_nil]

theorem splitLines_length (l : List Char) :
    (splitLines l).length = l.count '\n' + 1 := by
  induction l with
  | nil => rfl
  | cons c cs ih =>
    by_cases h : c = '\n'
    · subst h
      simp [splitLines, List.count_cons, ih]
    · obtain ⟨hd, tl, heq⟩ := List.exists_cons_of_ne_nil (splitLines_ne_nil cs)
      rw [heq] at ih
      simp only [splitLines, if_neg h, heq, consHead, List.length_cons, List.count_cons]
      simp only [List.length_cons] at ih
      have hb : (c == '\n') = false := by simp [h]
      simp only [hb, Bool.false_eq_true, if_false]
      omega

theorem foldl_add_paragraph (ls : List (List Char)) (d : DocxDocument) :
    (ls.foldl DocxDocument.add_paragraph d).paragraphs = d.paragraphs ++ ls := by
  induction ls generalizing d with
  | nil => simp
  | cons x xs ih =>
    rw [List.foldl_cons, ih]
    simp [DocxDocument.add_paragraph]

theorem word_paragraphs_eq (text : List Char) :
    (generate_word_file text).paragraphs = splitLines text := by
  unfold generate_word_file
  rw [foldl_add_paragraph]
  rfl

/-- C4: the Word renderer produces exactly one paragraph per line of the
text split on newlines, the lines in their original order, empty lines
preserved as empty paragraphs. -/
theorem word_file_paragraphs (text : List Char) :
    (generate_word_file text).paragraphs = splitLines text ∧
      (generate_word_file text).paragraphs.length = (splitLines text).length := by
  refine ⟨word_paragraphs_eq text, ?_⟩
  rw [word_paragraphs_eq text]

/-- C10: the Word renderer always yields `(number of newline characters) + 1`
paragraphs, hence at least one; the empty string yields exactly one empty
paragraph. -/
theorem word_file_paragraph_count (text : List Char) :
    (generate_word_file text).paragraphs.length = text.count '\n' + 1 ∧
      1 ≤ (generate_word_file text).paragraphs.length ∧
      (generate_word_file []).paragraphs = [[]] := by
  refine ⟨?_, ?_, rfl⟩
  · rw [word_paragraphs_eq text, splitLines_length]
  · rw [word_paragraphs_eq text, splitLines_length]
    omega

theorem drawnFrom_length (j : ℕ) (ls : List (List Char)) :
    (drawnFrom j ls).length = ls.length := by
  induction ls generalizing j with
  | nil => rfl
  | cons x xs ih => simp [drawnFrom, ih]

theorem drawnFrom_append (j : ℕ) (xs ys : List (List Char)) :
    drawnFrom j (xs ++ ys) = drawnFrom j xs ++ drawnFrom (j + xs.length) ys := by
  induction xs generalizing j with
  | nil => simp [drawnFrom]
  | cons x xs ih =>
    simp only [List.cons_append, drawnFrom, List.length_cons, List.append_eq]
    rw [ih (j + 1)]
    have hn : j + 1 + xs.length = j + (xs.length + 1) := by omega
    rw [hn]

theorem pdf_foldl_no_break (lines : List (List Char))
    (P : List (List (ℚ × ℚ × List Char))) (cur : List (ℚ × ℚ × List Char)) (j : ℕ)
    (hlen : j + lines.length ≤ 54) :
    List.foldl pdfDrawLine ⟨P, cur, A4height - 40 - 14 * j⟩ lines =
      ⟨P, cur ++ drawnFrom j lines, A4height - 40 - 14 * ((j + lines.length : ℕ) : ℚ)⟩ := by
  induction lines generalizing cur j with
  | nil => simp [drawnFrom]
  | cons l ls ih =>
    have hA : A4height = 106920 / 127 := rfl
    rw [List.foldl_cons]
    have hstep : pdfDrawLine ⟨P, cur, A4height - 40 - 14 * j⟩ l =
        ⟨P, cur ++ [(40, A4height - 40 - 14 * j, l)],
         A4height - 40 - 14 * (((j + 1 : ℕ)) : ℚ)⟩ := by
      unfold pdfDrawLine
      have hy : A4height - 40 - 14 * (j : ℚ) - 14 =
          A4height - 40 - 14 * (((j + 1 : ℕ)) : ℚ) := by
        push_cast
        ring
      have hj : (j : ℚ) ≤ 53 := by
        have hj' : j ≤ 53 := by
          simp only [List.length_cons] at hlen
          omega
        exact_mod_cast hj'
      have hge : ¬ (A4height - 40 - 14 * (((j + 1 : ℕ)) : ℚ) < 40) := by
        push_cast
        rw [hA]
        push_cast at hj
        nlinarith
      simp only [hy, hge, if_false]
    rw [hstep]
    have hlen' : (j + 1) + ls.length ≤ 54 := by
      simp only [List.length_cons] at hlen
      omega
    rw [ih (cur ++ [(40, A4height - 40 - 14 * j, l)]) (j + 1) hlen']
    have hn : j + 1 + ls.length = j + (l :: ls).length := by
      simp only [List.length_cons]
      omega
    rw [hn]
    simp only [drawnFrom, List.append_assoc, List.singleton_append]

theorem pdf_fill_page (lines : List (List Char))
    (P : List (List (ℚ × ℚ × List Char))) (h : lines.length = 55) :
    List.foldl pdfDrawLine ⟨P, [], A4height - 40⟩ lines =
      ⟨P ++ [drawnFrom 0 lines], [], A4height - 40⟩ := by
  have hA : A4height = 106920 / 127 := rfl
  obtain ⟨a, ha⟩ : ∃ a, lines.drop 54 = [a] := by
    rw [← List.length_eq_one, List.length_drop, h]
  have hsplit : lines = lines.take 54 ++ [a] := by
    conv_lhs => rw [← List.take_append_drop 54 lines]
    rw [ha]
  have htake : (lines.take 54).length = 54 := by
    rw [List.length_take, h]
    omega
  have h0 : (⟨P, [], A4height - 40⟩ : PdfState) =
      ⟨P, [], A4height - 40 - 14 * ((0 : ℕ) : ℚ)⟩ := by
    norm_num
  conv_lhs => rw [hsplit]
  rw [List.foldl_append, h0,
    pdf_foldl_no_break (lines.take 54) P [] 0 (by rw [htake])]
  rw [List.nil_append, List.foldl_cons, List.foldl_nil]
  have hybreak : A4height - 40 - 14 * (((0 + (lines.take 54).length : ℕ)) : ℚ) - 14 < 40 := by
    rw [htake, hA]
    norm_num
  unfold pdfDrawLine
  simp only [hybreak, if_true]
  have hpage : drawnFrom 0 lines =
      drawnFrom 0 (lines.take 54) ++
        [(40, A4height - 40 - 14 * (((0 + (lines.take 54).length : ℕ)) : ℚ), a)] := by
    conv_lhs => rw [hsplit]
    rw [drawnFrom_append]
    simp [drawnFrom, htake]
  rw [hpage]

theorem pdf_pages_split (text : List Char)
    (h1 : 55 < (splitLines text).length) (h2 : (splitLines text).length ≤ 109) :
    generate_pdf_file text =
      ⟨[drawnFrom 0 ((splitLines text).take 55)],
       drawnFrom 0 ((splitLines text).drop 55),
       A4height - 40 - 14 * ((((splitLines text).drop 55).length : ℕ) : ℚ)⟩ := by
  unfold generate_pdf_file
  have htake : ((splitLines text).take 55).length = 55 := by
    rw [List.length_take]
    omega
  have hdrop : ((splitLines text).drop 55).length ≤ 54 := by
    rw [List.length_drop]
    omega
  conv_lhs => rw [← List.take_append_drop 55 (splitLines text)]
  rw [List.foldl_append]
  have hinit : (pdfInit : PdfState) = ⟨[], [], A4height - 40⟩ := rfl
  rw [hinit, pdf_fill_page _ _ htake, List.nil_append]
  have h0 : (⟨[drawnFrom 0 ((splitLines text).take 55)], [], A4height - 40⟩ : PdfState) =
      ⟨[drawnFrom 0 ((splitLines text).take 55)], [],
       A4height - 40 - 14 * ((0 : ℕ) : ℚ)⟩ := by
    norm_num
  rw [h0, pdf_foldl_no_break _ _ [] 0 (by omega)]
  simp

/-- C5 counterexample: the spec predicts the page capacity
⌊(800-80)/14⌋ = 51 lines, so a 52-line document should trigger one page
break; the code draws all 52 lines on the first page and never breaks. -/
theorem pdf_no_break_at_52 :
    (splitLines pdfSmallDoc).length = 52 ∧
      (generate_pdf_file pdfSmallDoc).pages = [] ∧
      (generate_pdf_file pdfSmallDoc).current.length = 52 := by
  have hlen : (splitLines pdfSmallDoc).length = 52 := by decide
  have h0 : (pdfInit : PdfState) = ⟨[], [], A4height - 40 - 14 * ((0 : ℕ) : ℚ)⟩ := by
    unfold pdfInit
    norm_num
  have h := pdf_foldl_no_break (splitLines pdfSmallDoc) [] [] 0 (by omega)
  refine ⟨hlen, ?_, ?_⟩
  · unfold generate_pdf_file
    rw [h0, h]
  · unfold generate_pdf_file
    rw [h0, h]
    simp [drawnFrom_length, hlen]

/-- C5 (amended): the PDF renderer starts at `height - 40` (a 40-unit top
margin on the 106920/127 ≈ 841.89-unit A4 height), advances 14 units per
line, and breaks to a fresh page when the cursor drops below the 40-unit
bottom margin; a page therefore holds 55 lines (not ⌊(800-80)/14⌋ = 51),
and a document of more than 55 and at most 109 lines yields exactly one
page break, after line 55, with the remaining lines drawn from the top
margin of the second page at 14-unit steps. -/
theorem pdf_one_page_break (text : List Char)
    (h1 : 55 < (splitLines text).length) (h2 : (splitLines text).length ≤ 109) :
    (generate_pdf_file text).pages = [drawnFrom 0 ((splitLines text).take 55)] ∧
      (generate_pdf_file text).current = drawnFrom 0 ((splitLines text).drop 55) ∧
      (generate_pdf_file text).pages.length = 1 ∧
      ((generate_pdf_file text).pages.headD []).length = 55 ∧
      pdfInit.y_position = A4height - 40 := by
  rw [pdf_pages_split text h1 h2]
  refine ⟨rfl, rfl, rfl, ?_, rfl⟩
  simp only [List.headD_cons, drawnFrom_length, List.length_take]
  omega

/-- Witness for the amended C5: the 60-line document gets exactly one page
break, after line 55. -/
theorem pdf_one_page_break_witness :
    (55 < (splitLines pdfBigDoc).length ∧ (splitLines pdfBigDoc).length ≤ 109) ∧
      ((generate_pdf_file pdfBigDoc).pages =
          [drawnFrom 0 ((splitLines pdfBigDoc).take 55)] ∧
        (generate_pdf_file pdfBigDoc).current =
          drawnFrom 0 ((splitLines pdfBigDoc).drop 55) ∧
        (generate_pdf_file pdfBigDoc).pages.length = 1 ∧
        ((generate_pdf_file pdfBigDoc).pages.headD []).length = 55 ∧
        pdfInit.y_position = A4height - 40) :=
  ⟨⟨by decide, by decide⟩, pdf_one_page_break pdfBigDoc (by decide) (by decide)⟩

theorem pdfDrawnCount_step (st : PdfState) (line : List Char) :
    pdfDrawnCount (pdfDrawLine st line) = pdfDrawnCount st + 1 := by
  unfold pdfDrawLine pdfDrawnCount
  by_cases h : st.y_position - 14 < 40
  · simp [h, List.length_append]
    omega
  · simp [h, List.length_append]
    omega

theorem pdfDrawnCount_foldl (lines : List (List Char)) (st : PdfState) :
    pdfDrawnCount (lines.foldl pdfDrawLine st) = pdfDrawnCount st + lines.length := by
  induction lines generalizing st with
  | nil => simp
  | cons l ls ih =>
    rw [List.foldl_cons, ih, pdfDrawnCount_step]
    simp only [List.length_cons]
    omega

theorem generate_pdf_nonempty (text : List Char) :
    0 < pdfDrawnCount (generate_pdf_file text) := by
  unfold generate_pdf_file
  rw [pdfDrawnCount_foldl]
  have h := splitLines_length text
  omega

theorem chunk_merge {x y w : List Char} (h : x ++ y = w) (z : List Char) :
    x ++ (y ++ z) = w ++ z := by
  rw [← List.append_assoc, h]

theorem gpw_decomp_title (role text : List Char) :
    generate_portfolio_website role text =
      str "<!DOCTYPE html>\n<html lang=\x27en\x27>\n<head>\n  <meta charset=\x27UTF-8\x27>\n  <meta name=\x27viewport\x27 content=\x27width=device-width, initial-scale=1.0\x27>\n  " ++
      ((str "<title>Portfolio - " ++ role ++ str "</title>") ++
       (str "\n</head>\n<body>\n\n<h1>Portfolio – " ++ role ++
        str "</h1>\n\n<pre>\n" ++ text ++ str "\n</pre>\n\n</body>\n</html>\n")) := by
  unfold generate_portfolio_website
  simp only [List.append_assoc]
  have m1 : str "<!DOCTYPE html>\n<html lang=\x27en\x27>\n<head>\n  <meta charset=\x27UTF-8\x27>\n  <meta name=\x27viewport\x27 content=\x27width=device-width, initial-scale=1.0\x27>\n  " ++
      str "<title>Portfolio - " =
      str "<!DOCTYPE html>\n<html lang=\x27en\x27>\n<head>\n  <meta charset=\x27UTF-8\x27>\n  <meta name=\x27viewport\x27 content=\x27width=device-width, initial-scale=1.0\x27>\n  <title>Portfolio - " := by
    decide
  have m2 : str "</title>" ++ str "\n</head>\n<body>\n\n<h1>Portfolio – " =
      str "</title>\n</head>\n<body>\n\n<h1>Portfolio – " := by
    decide
  rw [chunk_merge m1, chunk_merge m2]

theorem gpw_decomp_pre (role text : List Char) :
    generate_portfolio_website role text =
      (str "<!DOCTYPE html>\n<html lang=\x27en\x27>\n<head>\n  <meta charset=\x27UTF-8\x27>\n  <meta name=\x27viewport\x27 content=\x27width=device-width, initial-scale=1.0\x27>\n  <title>Portfolio - " ++
       role ++ str "</title>\n</head>\n<body>\n\n<h1>Portfolio – " ++ role ++
       str "</h1>\n\n") ++
      ((str "<pre>\n" ++ text ++ str "\n</pre>") ++ str "\n\n</body>\n</html>\n") := by
  unfold generate_portfolio_website
  simp only [List.append_assoc]
  have m1 : str "</h1>\n\n" ++ str "<pre>\n" = str "</h1>\n\n<pre>\n" := by decide
  have m2 : str "\n</pre>" ++ str "\n\n</body>\n</html>\n" =
      str "\n</pre>\n\n</body>\n</html>\n" := by decide
  rw [chunk_merge m1, m2]

/-- C6: the portfolio website HTML contains the label inside the title
element and the candidate text verbatim, unescaped, inside the pre block;
and the Portfolio branch of the submit handler builds the HTML artifact
from the original raw resume text (not from the normalized text nor from
the portfolio template text). -/
theorem portfolio_website_embeds (role text : List Char)
    (classify : List Char → List Char) (resume_text job_description : List Char)
    (h : pyStripIsEmpty resume_text = false) :
    containsSub (str "<title>Portfolio - " ++ role ++ str "</title>")
        (generate_portfolio_website role text) ∧
      containsSub (str "<pre>\n" ++ text ++ str "\n</pre>")
        (generate_portfolio_website role text) ∧
      (submit classify DocOption.GeneratePortfolio resume_text job_description).artifacts =
        [⟨str "portfolio.docx",
          Payload.word (generate_word_file (generate_portfolio (classify (clean_text resume_text))))⟩,
         ⟨str "portfolio.pdf",
          Payload.pdf (generate_pdf_file (generate_portfolio (classify (clean_text resume_text))))⟩,
         ⟨str "portfolio.html",
          Payload.html (generate_portfolio_website (classify (clean_text resume_text)) resume_text)⟩] := by
  refine ⟨?_, ?_, ?_⟩
  · exact ⟨_, _, gpw_decomp_title role text⟩
  · exact ⟨_, _, gpw_decomp_pre role text⟩
  · unfold submit
    rw [h]
    simp

theorem generate_resume_decomp (role : List Char) :
    generate_resume role =
      str "PROFESSIONAL RESUME\n\n" ++
      ((str "Target Role: " ++ role) ++
       str "\n\nPROFESSIONAL SUMMARY\nMotivated professional seeking a role in this domain.\nStrong foundation in technical skills and problem solving.\n\nCORE SKILLS\n- Python, Machine Learning, Streamlit, Data Analysis\n- Communication, Teamwork, Problem Solving\n- Tools: Git, Jupyter Notebook, VS Code\n\nPROJECT EXPERIENCE\nAI Resume & Portfolio Builder\n- Built a ML model to classify resumes.\n- Deployed an interactive app using Streamlit.\n\nEDUCATION\nBachelor’s Degree in a relevant discipline\n\nCERTIFICATIONS\n- Python for Data Science\n- Machine Learning Fundamentals\n\nADDITIONAL INFORMATION\nStrong interest in continuous learning and AI applications.\n") := by
  unfold generate_resume
  simp only [List.append_assoc]
  have m1 : str "PROFESSIONAL RESUME\n\n" ++ str "Target Role: " =
      str "PROFESSIONAL RESUME\n\nTarget Role: " := by decide
  rw [chunk_merge m1]

/-- C8: end-to-end Resume scenario on the input `ex8text` with an empty job
description: the classifier is called exactly once, with the normalized
text `ex8clean`; the dispatcher yields exactly the artifacts `resume.docx`
and `resume.pdf`, both with non-empty rendered content; and the generated
resume text contains the predicted label verbatim immediately after
`Target Role: `. -/
theorem resume_end_to_end (classify : List Char → List Char) :
    (submit classify DocOption.GenerateResume ex8text []).classifierCalls = [ex8clean] ∧
      (submit classify DocOption.GenerateResume ex8text []).artifacts.map Artifact.filename
        = [str "resume.docx", str "resume.pdf"] ∧
      (submit classify DocOption.GenerateResume ex8text []).artifacts.all
        (fun a => payloadNonempty a.payload) = true ∧
      (submit classify DocOption.GenerateResume ex8text []).shownText
        = some (generate_resume (classify ex8clean)) ∧
      containsSub (str "Target Role: " ++ classify ex8clean)
        ((submit classify DocOption.GenerateResume ex8text []).shownText.getD []) := by
  have hne : pyStripIsEmpty ex8text = false := by decide
  have hclean : clean_text ex8text = ex8clean := by decide
  have hsub : submit classify DocOption.GenerateResume ex8text [] =
      { warned := false, classifierCalls := [ex8clean],
        shownText := some (generate_resume (classify ex8clean)),
        artifacts := [⟨str "resume.docx",
            Payload.word (generate_word_file (generate_resume (classify ex8clean)))⟩,
          ⟨str "resume.pdf",
            Payload.pdf (generate_pdf_file (generate_resume (classify ex8clean)))⟩] } := by
    simp only [submit, hne, hclean, Bool.false_eq_true, if_false]
    simp [customize_for_job, pyStripIsEmpty]
  refine ⟨?_, ?_, ?_, ?_, ?_⟩
  · rw [hsub]
  · rw [hsub]
    simp
  · rw [hsub]
    simp only [List.all_cons, List.all_nil, Bool.and_true, Bool.and_eq_true]
    constructor
    · simp only [payloadNonempty, decide_eq_true_eq]
      rw [word_paragraphs_eq]
      exact splitLines_ne_nil _
    · simp only [payloadNonempty, decide_eq_true_eq]
      exact generate_pdf_nonempty _
  · rw [hsub]
  · rw [hsub]
    simp only [Option.getD_some]
    exact ⟨_, _, generate_resume_decomp _⟩

/-- Witness for C6: concrete label, candidate text (with unescaped HTML
metacharacters), raw resume text and job description. -/
theorem portfolio_website_embeds_witness :
    pyStripIsEmpty (str "my raw resume") = false ∧
      (containsSub (str "<title>Portfolio - " ++ str "Data Science" ++ str "</title>")
          (generate_portfolio_website (str "Data Science") (str "body <&> text")) ∧
        containsSub (str "<pre>\n" ++ str "body <&> text" ++ str "\n</pre>")
          (generate_portfolio_website (str "Data Science") (str "body <&> text")) ∧
        (submit (fun _ => str "Data Science") DocOption.GeneratePortfolio
            (str "my raw resume") (str "ignored")).artifacts =
          [⟨str "portfolio.docx",
            Payload.word (generate_word_file (generate_portfolio (str "Data Science")))⟩,
           ⟨str "portfolio.pdf",
            Payload.pdf (generate_pdf_file (generate_portfolio (str "Data Science")))⟩,
           ⟨str "portfolio.html",
            Payload.html (generate_portfolio_website (str "Data Science")
              (str "my raw resume"))⟩]) :=
  ⟨by decide,
   portfolio_website_embeds (str "Data Science") (str "body <&> text")
     (fun _ => str "Data Science") (str "my raw resume") (str "ignored") (by decide)⟩
